import Mathlib

/-!
# Shallow embedding of the Snake game engine (python-pi5/games/snake)

This file embeds the game-state transition logic of
`games/snake/game_state.py`, the joystick direction sampling of
`games/snake/input_handler.py` and the spiral coordinate generators of
`games/snake/renderer.py`, and proves properties of them.

Modelling conventions:
* Python's `deque` of `(x, y)` int pairs becomes `List (Int × Int)`,
  head of the snake first; `appendleft` is `::`, `pop` (from the right
  end) is `List.dropLast`, `[0]` is the head of the list, `list[1:]`
  is the tail.
* `randint(0, grid_size - 1)` draws are modelled by an explicit stream
  `draws : Nat → Int × Int` of sampled cells; the rejection-sampling
  loop of `spawn_food` walks along this stream and carries a fuel
  bound, returning `none` when the fuel runs out, so that every
  function stays total while the Python loop's unbounded search is
  represented faithfully.
* Operations that would raise in Python (`snake_positions[0]` on an
  empty deque) return `none`.
* The joystick axis values (floats in `[0, 1]` produced by `MCP3008`)
  are modelled as rationals.
-/

namespace Snake

/-- `Direction` enum of `direction.py`: UP, DOWN, LEFT, RIGHT, NONE. -/
inductive Direction : Type where
  | UP
  | DOWN
  | LEFT
  | RIGHT
  | NONE
deriving DecidableEq, Repr

/-- The `GameState` dataclass of `game_state.py`. -/
structure GameState : Type where
  snake_positions : List (Int × Int)
  direction : Direction
  food_position : Int × Int
  score : Nat
  game_over : Bool
  grid_size : Nat
  food_eaten : Bool
deriving DecidableEq, Repr

/-- The rejection-sampling loop of `GameState.spawn_food`:
`while True: x, y = draw(); if (x, y) not in snake_positions: break`.
`draws i` is the cell produced by the `i`-th pair of `randint` calls;
the loop starts at index `i` and gives up (returns `none`) after
`fuel` draws. -/
def spawn_food (body : List (Int × Int)) (draws : Nat → Int × Int) :
    Nat → Nat → Option (Int × Int)
  | _, 0 => none
  | i, fuel + 1 =>
    if draws i ∈ body then spawn_food body draws (i + 1) fuel
    else some (draws i)

/-- `GameState.check_collision`: if the head occurs again in the rest
of the body, set `game_over`.  Python would raise `IndexError` on an
empty deque, modelled by `none`. -/
def check_collision (s : GameState) : Option GameState :=
  match s.snake_positions with
  | [] => none
  | hd :: tl => some (if hd ∈ tl then { s with game_over := true } else s)

/-- The new head `move_snake` computes from the current head and the
stored direction (`Direction.NONE` would mean no movement). -/
def new_head_of (hd : Int × Int) (d : Direction) : Int × Int :=
  match d with
  | .UP => (hd.1, hd.2 - 1)
  | .DOWN => (hd.1, hd.2 + 1)
  | .LEFT => (hd.1 - 1, hd.2)
  | .RIGHT => (hd.1 + 1, hd.2)
  | .NONE => hd

/-- `GameState.move_snake` of `game_state.py`.  Note: the Python method
is declared as `def move_snake(self)` — it takes no direction argument
and never writes `self.direction`.  It prepends the new head, then
either eats (`check_food_collision` true: `eat_food` increments the
score, sets `food_eaten` and respawns the food, tail kept), or pops
the tail (when `food_eaten` is false), or merely resets `food_eaten`
(tail kept), and finally runs `check_collision`. -/
def move_snake (draws : Nat → Int × Int) (fuel : Nat) (s : GameState) :
    Option GameState :=
  match s.snake_positions with
  | [] => none
  | hd :: tl =>
    let new_head := new_head_of hd s.direction
    let body1 := new_head :: hd :: tl
    if new_head = s.food_position then
      match spawn_food body1 draws 0 fuel with
      | none => none
      | some f =>
        check_collision { s with
          snake_positions := body1
          score := s.score + 1
          food_eaten := true
          food_position := f }
    else if s.food_eaten = false then
      check_collision { s with snake_positions := body1.dropLast }
    else
      check_collision { s with snake_positions := body1, food_eaten := false }

/-- `GameState.__init__`: body `[(4,4),(4,5),(4,6)]`, direction `UP`,
food spawned avoiding the body, score 0, not game over; `grid_size`
and `food_eaten` keep their dataclass defaults `8` and `False`. -/
def initState (draws : Nat → Int × Int) (fuel : Nat) : Option GameState :=
  match spawn_food [(4, 4), (4, 5), (4, 6)] draws 0 fuel with
  | none => none
  | some f =>
    some { snake_positions := [(4, 4), (4, 5), (4, 6)]
           direction := .UP
           food_position := f
           score := 0
           game_over := false
           grid_size := 8
           food_eaten := false }

/-- Run `n` consecutive `move_snake` ticks (each tick re-uses the same
draw stream and fuel for its potential food respawn). -/
def runTicks (draws : Nat → Int × Int) (fuel : Nat) :
    Nat → GameState → Option GameState
  | 0, s => some s
  | n + 1, s => (move_snake draws fuel s).bind (runTicks draws fuel n)

/-- All cells of the `n × n` grid sampled by `randint(0, n-1)`. -/
def gridCells (n : Nat) : List (Int × Int) :=
  (List.range n).flatMap (fun x => (List.range n).map (fun y => ((x : Int), (y : Int))))

/-- `InputHandler.get_direction` of `input_handler.py`, on the two
sampled axis values (floats in `[0,1]`, modelled as rationals):
`threshold = 0.1`, `mid = 0.5`; X is tested before Y. -/
def get_direction (x y : ℚ) : Direction :=
  let threshold : ℚ := 1 / 10
  let mid : ℚ := 1 / 2
  if x < mid - threshold then .LEFT
  else if x > mid + threshold then .RIGHT
  else if y < mid - threshold then .UP
  else if y > mid + threshold then .DOWN
  else .NONE

/-- Python's `range(a, b)` over ints, as a list. -/
def rangeInt (a b : Int) : List Int :=
  (List.range (b - a).toNat).map (fun (i : Nat) => a + (i : Int))

/-- One `while` iteration of `_generate_spiral_coords_outside_in`
(`renderer.py`), recursing on the shrunk bounds.  The `fuel` bounds
the number of iterations of the Python `while top <= bottom and
left <= right` loop; it is spent only when the loop condition holds,
and `spiralAux_count` below shows the initial fuel supplied by
`_generate_spiral_coords_outside_in` is never exhausted. -/
def spiralAux : Nat → Int → Int → Int → Int → List (Int × Int)
  | 0, _, _, _, _ => []
  | fuel + 1, top, bottom, left, right =>
    if top ≤ bottom ∧ left ≤ right then
      -- Top row: left to right
      let topRow := (rangeInt left (right + 1)).map (fun x => (x, top))
      let top1 := top + 1
      -- Right column: top to bottom
      let rightCol := (rangeInt top1 (bottom + 1)).map (fun y => (right, y))
      let right1 := right - 1
      -- Bottom row: right to left (only if top <= bottom)
      let bottomRow :=
        if top1 ≤ bottom then
          (rangeInt left (right1 + 1)).reverse.map (fun x => (x, bottom))
        else []
      let bottom1 := if top1 ≤ bottom then bottom - 1 else bottom
      -- Left column: bottom to top (only if left <= right)
      let leftCol :=
        if left ≤ right1 then
          (rangeInt top1 (bottom1 + 1)).reverse.map (fun y => (left, y))
        else []
      let left1 := if left ≤ right1 then left + 1 else left
      topRow ++ rightCol ++ bottomRow ++ leftCol ++
        spiralAux fuel top1 bottom1 left1 right1
    else []

/-- `_generate_spiral_coords_outside_in(width, height)` of
`renderer.py`: clockwise spiral from the top-left corner inwards. -/
def generate_spiral_coords_outside_in (width height : Int) :
    List (Int × Int) :=
  spiralAux (width.toNat + height.toNat) 0 (height - 1) 0 (width - 1)

/-- `_generate_spiral_coords_inside_out(width, height)`: simply the
reversal of the outside-in spiral. -/
def generate_spiral_coords_inside_out (width height : Int) :
    List (Int × Int) :=
  (generate_spiral_coords_outside_in width height).reverse

/-! Concrete draw streams and game states used to instantiate the
theorems below. -/

/-- A draw stream that always samples the cell `(0, 0)`. -/
def dZero : Nat → Int × Int := fun _ => (0, 0)

/-- A draw stream that always samples the cell `(4, 3)` (the cell
directly above the initial head). -/
def dFood : Nat → Int × Int := fun _ => (4, 3)

/-- A draw stream enumerating the whole 8×8 grid in its first 64
samples: sample `i` is `(i % 8, i / 8 % 8)`. -/
def enumDraws : Nat → Int × Int :=
  fun i => (((i % 8 : Nat) : Int), ((i / 8 % 8 : Nat) : Int))

/-- The freshly constructed state with food at `(0, 0)`:
`initState dZero 1` evaluates to `some sInit`. -/
def sInit : GameState :=
  { snake_positions := [(4, 4), (4, 5), (4, 6)]
    direction := .UP
    food_position := (0, 0)
    score := 0
    game_over := false
    grid_size := 8
    food_eaten := false }

/-- The state one tick after `sInit` (head moved up, tail popped). -/
def sOut : GameState :=
  { sInit with snake_positions := [(4, 3), (4, 4), (4, 5)] }

/-- The freshly constructed state with food at `(4, 3)`:
`initState dFood 1` evaluates to `some g0`. -/
def g0 : GameState :=
  { sInit with food_position := (4, 3) }

/-- The state one tick after `g0` (food draw stream `dZero`): the head
landed on the food, so the snake grew, the score is 1, the food was
respawned at `(0, 0)` and `food_eaten` is set. -/
def g1 : GameState :=
  { snake_positions := [(4, 3), (4, 4), (4, 5), (4, 6)]
    direction := .UP
    food_position := (0, 0)
    score := 1
    game_over := false
    grid_size := 8
    food_eaten := true }

/-- The state one tick after `g1`: the new head `(4, 2)` is not the
food, yet the still-set `food_eaten` flag suppresses the tail pop, so
the body grows again. -/
def g2 : GameState :=
  { snake_positions := [(4, 2), (4, 3), (4, 4), (4, 5), (4, 6)]
    direction := .UP
    food_position := (0, 0)
    score := 1
    game_over := false
    grid_size := 8
    food_eaten := false }

/-- A terminated state (the `game_over` flag is set). -/
def sTerm : GameState :=
  { sInit with game_over := true }

/-- The state `move_snake` produces from the terminated state `sTerm`:
the body still moved. -/
def sTermOut : GameState :=
  { sTerm with snake_positions := [(4, 3), (4, 4), (4, 5)] }

end Snake


namespace Snake

/-! ## Helper lemmas about the transition functions -/

/-- `check_collision` either leaves the state alone or only sets
`game_over`. -/
theorem check_collision_cases (s s' : GameState)
    (h : check_collision s = some s') :
    s' = s ∨ s' = { s with game_over := true } := by
  unfold check_collision at h
  split at h
  · exact absurd h (by simp)
  · rw [Option.some.injEq] at h
    split at h
    · right; exact h.symm
    · left; exact h.symm

/-- `check_collision` changes no field other than `game_over`. -/
theorem check_collision_fields (s s' : GameState)
    (h : check_collision s = some s') :
    s'.snake_positions = s.snake_positions ∧ s'.direction = s.direction ∧
      s'.food_position = s.food_position ∧ s'.score = s.score ∧
      s'.food_eaten = s.food_eaten := by
  rcases check_collision_cases s s' h with rfl | rfl <;> simp

/-- `check_collision` never clears the `game_over` flag. -/
theorem check_collision_game_over (s s' : GameState)
    (h : check_collision s = some s') (hg : s.game_over = true) :
    s'.game_over = true := by
  rcases check_collision_cases s s' h with rfl | rfl
  · exact hg
  · simp

/-- On a state with a nonempty body, `check_collision` succeeds. -/
theorem check_collision_of_cons (s : GameState) (hd : Int × Int)
    (tl : List (Int × Int)) (hs : s.snake_positions = hd :: tl) :
    ∃ s', check_collision s = some s' := by
  unfold check_collision
  split
  · rename_i heq
    rw [hs] at heq
    exact absurd heq (by simp)
  · exact ⟨_, rfl⟩

/-- Whatever the rejection-sampling loop returns is not on the body it
was asked to avoid. -/
theorem spawn_food_not_mem (body : List (Int × Int))
    (draws : Nat → Int × Int) :
    ∀ (fuel i : Nat) (pos : Int × Int),
      spawn_food body draws i fuel = some pos → pos ∉ body := by
  intro fuel
  induction fuel with
  | zero => intro i pos h; simp [spawn_food] at h
  | succ n ih =>
    intro i pos h
    simp only [spawn_food] at h
    split at h
    · exact ih (i + 1) pos h
    · rename_i hmem
      rw [Option.some.injEq] at h
      subst h
      exact hmem

/-- If the draw stream eventually samples a cell off the body, the
rejection-sampling loop succeeds with enough fuel. -/
theorem spawn_food_succeeds (body : List (Int × Int))
    (draws : Nat → Int × Int) :
    ∀ (j i : Nat), draws (i + j) ∉ body →
      ∃ pos, spawn_food body draws i (j + 1) = some pos := by
  intro j
  induction j with
  | zero =>
    intro i h
    simp only [spawn_food]
    rw [if_neg (by simpa using h)]
    exact ⟨_, rfl⟩
  | succ n ih =>
    intro i h
    simp only [spawn_food]
    by_cases hm : draws i ∈ body
    · rw [if_pos hm]
      exact ih (i + 1) (by rw [show i + 1 + n = i + (n + 1) from by omega]; exact h)
    · rw [if_neg hm]
      exact ⟨_, rfl⟩

/-- `move_snake` on an empty body fails (Python raises `IndexError`). -/
theorem move_snake_nil (draws : Nat → Int × Int) (fuel : Nat)
    (s : GameState) (hs : s.snake_positions = []) :
    move_snake draws fuel s = none := by
  unfold move_snake
  split
  · rfl
  · rename_i hd tl heq
    rw [hs] at heq
    exact absurd heq (by simp)

/-- Unfolding of `move_snake` on a state with body `hd :: tl`. -/
theorem move_snake_cons (draws : Nat → Int × Int) (fuel : Nat)
    (s : GameState) (hd : Int × Int) (tl : List (Int × Int))
    (hs : s.snake_positions = hd :: tl) :
    move_snake draws fuel s =
      (if new_head_of hd s.direction = s.food_position then
        match spawn_food (new_head_of hd s.direction :: hd :: tl) draws 0 fuel with
        | none => none
        | some f =>
          check_collision { s with
            snake_positions := new_head_of hd s.direction :: hd :: tl
            score := s.score + 1
            food_eaten := true
            food_position := f }
      else if s.food_eaten = false then
        check_collision { s with
          snake_positions := (new_head_of hd s.direction :: hd :: tl).dropLast }
      else
        check_collision { s with
          snake_positions := new_head_of hd s.direction :: hd :: tl
          food_eaten := false }) := by
  unfold move_snake
  split
  · rename_i heq
    rw [hs] at heq
    exact absurd heq (by simp)
  · rename_i hd' tl' heq
    rw [hs] at heq
    cases heq
    rfl

/-- `move_snake` never changes `direction` or `grid_size` and never
clears the `game_over` flag. -/
theorem move_snake_fields (draws : Nat → Int × Int) (fuel : Nat)
    (s s' : GameState) (h : move_snake draws fuel s = some s') :
    s'.direction = s.direction ∧ (s.game_over = true → s'.game_over = true) := by
  rcases hs : s.snake_positions with _ | ⟨hd, tl⟩
  · rw [move_snake_nil draws fuel s hs] at h
    exact absurd h (by simp)
  · rw [move_snake_cons draws fuel s hd tl hs] at h
    split at h
    · split at h
      · exact absurd h (by simp)
      · refine ⟨(check_collision_fields _ _ h).2.1.trans (by simp), fun hg => ?_⟩
        exact check_collision_game_over _ _ h (by simpa using hg)
    · split at h
      · refine ⟨(check_collision_fields _ _ h).2.1.trans (by simp), fun hg => ?_⟩
        exact check_collision_game_over _ _ h (by simpa using hg)
      · refine ⟨(check_collision_fields _ _ h).2.1.trans (by simp), fun hg => ?_⟩
        exact check_collision_game_over _ _ h (by simpa using hg)

/-! ## Claim theorems -/

/-- Claim C1 (evidence for the code bug): contrary to the claim, the
tick transition `GameState.move_snake` of `game_state.py` is declared
as `def move_snake(self)` — it accepts no `Direction` input at all and
never writes `self.direction`, so every successful tick leaves the
stored heading exactly as it was; its own caller
(`main.py:40`, `game_state.move_snake(direction)`) passes a direction,
which raises `TypeError` at run time. -/
theorem move_snake_never_updates_heading (draws : Nat → Int × Int)
    (fuel : Nat) (s s' : GameState) (h : move_snake draws fuel s = some s') :
    s'.direction = s.direction :=
  (move_snake_fields draws fuel s s' h).1

/-- Witness for `move_snake_never_updates_heading` at the initial
state. -/
theorem move_snake_never_updates_heading_witness :
    sOut.direction = sInit.direction :=
  move_snake_never_updates_heading dZero 1 sInit sOut (by decide)

/-- Claim C2 counterexample: from the freshly constructed state `g0`
(food at `(4,3)`), the first tick eats the food giving `g1`
(`food_eaten = true`); on the second tick the new head `(4,2)` does
not equal the food `(0,0)`, yet the body length grows from 4 to 5,
because the still-set `food_eaten` flag suppresses the tail pop. -/
theorem non_growth_invariant_fails :
    initState dFood 1 = some g0 ∧
    move_snake dZero 1 g0 = some g1 ∧
    move_snake dZero 1 g1 = some g2 ∧
    g1.snake_positions = [(4, 3), (4, 4), (4, 5), (4, 6)] ∧
    new_head_of (4, 3) g1.direction ≠ g1.food_position ∧
    g2.snake_positions.length = g1.snake_positions.length + 1 := by
  decide

/-- Claim C2 (amended): on a tick whose new head does not equal the
food, the body length is unchanged when `food_eaten` is false, and
grows by exactly one when `food_eaten` is true (i.e. on the tick
immediately after an eating tick, whose pop is skipped). -/
theorem non_growth_depends_on_food_eaten (draws : Nat → Int × Int)
    (fuel : Nat) (s s' : GameState) (hd : Int × Int)
    (tl : List (Int × Int)) (hs : s.snake_positions = hd :: tl)
    (hne : new_head_of hd s.direction ≠ s.food_position)
    (hm : move_snake draws fuel s = some s') :
    (s.food_eaten = false →
      s'.snake_positions.length = s.snake_positions.length) ∧
    (s.food_eaten = true →
      s'.snake_positions.length = s.snake_positions.length + 1) := by
  rw [move_snake_cons draws fuel s hd tl hs, if_neg hne] at hm
  constructor
  · intro hfe
    rw [if_pos hfe] at hm
    rw [(check_collision_fields _ _ hm).1]
    simp [hs]
  · intro hfe
    rw [if_neg (by simp [hfe])] at hm
    rw [(check_collision_fields _ _ hm).1]
    simp [hs]

/-- Witness for `non_growth_depends_on_food_eaten`: an ordinary tick
(`sInit`, flag clear) keeps length 3; the tick after eating (`g1`,
flag set) grows from 4 to 5. -/
theorem non_growth_depends_on_food_eaten_witness :
    sOut.snake_positions.length = sInit.snake_positions.length ∧
    g2.snake_positions.length = g1.snake_positions.length + 1 :=
  ⟨(non_growth_depends_on_food_eaten dZero 1 sInit sOut (4, 4)
      [(4, 5), (4, 6)] (by decide) (by decide) (by decide)).1 (by decide),
   (non_growth_depends_on_food_eaten dZero 1 g1 g2 (4, 3)
      [(4, 4), (4, 5), (4, 6)] (by decide) (by decide) (by decide)).2 (by decide)⟩

/-- Claim C3: on a tick whose new head equals the food position, the
body length grows by exactly one (the tail is kept) and the score
grows by exactly one. -/
theorem growth_invariant (draws : Nat → Int × Int) (fuel : Nat)
    (s s' : GameState) (hd : Int × Int) (tl : List (Int × Int))
    (hs : s.snake_positions = hd :: tl)
    (heat : new_head_of hd s.direction = s.food_position)
    (hm : move_snake draws fuel s = some s') :
    s'.snake_positions.length = s.snake_positions.length + 1 ∧
    s'.score = s.score + 1 := by
  rw [move_snake_cons draws fuel s hd tl hs, if_pos heat] at hm
  split at hm
  · exact absurd hm (by simp)
  · have hf := check_collision_fields _ _ hm
    constructor
    · rw [hf.1]; simp [hs]
    · rw [hf.2.2.2.1]

/-- Witness for `growth_invariant`: the eating tick `g0 → g1`. -/
theorem growth_invariant_witness :
    g1.snake_positions.length = g0.snake_positions.length + 1 ∧
    g1.score = g0.score + 1 :=
  growth_invariant dZero 1 g0 g1 (4, 4) [(4, 5), (4, 6)]
    (by decide) (by decide) (by decide)

/-- Claim C4 counterexample: on the terminated state `sTerm`
(`game_over = true`), `move_snake` still changes the body — the code
has no guard on the `game_over` flag, so the terminal state is not
frozen. -/
theorem terminal_state_not_frozen :
    sTerm.game_over = true ∧
    move_snake dZero 1 sTerm = some sTermOut ∧
    sTermOut.snake_positions ≠ sTerm.snake_positions := by
  decide

/-- Claim C4 (amended): the `game_over` flag itself is never cleared
by a tick — no transition leaves the terminated state — but the rest
of the state is not frozen (see `terminal_state_not_frozen`). -/
theorem game_over_never_clears (draws : Nat → Int × Int) (fuel : Nat)
    (s s' : GameState) (hm : move_snake draws fuel s = some s')
    (hg : s.game_over = true) : s'.game_over = true :=
  (move_snake_fields draws fuel s s' hm).2 hg

/-- Witness for `game_over_never_clears` at the terminated state
`sTerm`. -/
theorem game_over_never_clears_witness : sTermOut.game_over = true :=
  game_over_never_clears dZero 1 sTerm sTermOut (by decide) (by decide)

/-- Claim C5 (evidence for the code bug): from the spec's start state
(body `[(4,4),(4,5),(4,6)]`, heading UP), the code cannot apply the
`DOWN` input at all (`move_snake` takes no direction argument, so
`main.py`'s call raises `TypeError`); the tick it actually performs
keeps heading UP, moves the head to `(4,3)` — not `(4,5)` — and leaves
`game_over` false. -/
theorem reversal_input_has_no_effect :
    move_snake dZero 1 sInit = some sOut ∧
    sOut.direction = Direction.UP ∧
    sOut.snake_positions.head? = some (4, 3) ∧
    sOut.game_over = false := by
  decide

/-- Claim C6: immediately after every food placement — at construction
(`initState`) and after every eating tick — the food position is not a
member of the snake body. -/
theorem food_never_on_body_when_placed :
    (∀ (draws : Nat → Int × Int) (fuel : Nat) (g : GameState),
        initState draws fuel = some g →
        g.food_position ∉ g.snake_positions) ∧
    (∀ (draws : Nat → Int × Int) (fuel : Nat) (s : GameState)
        (hd : Int × Int) (tl : List (Int × Int)) (s' : GameState),
        s.snake_positions = hd :: tl →
        new_head_of hd s.direction = s.food_position →
        move_snake draws fuel s = some s' →
        s'.food_position ∉ s'.snake_positions) := by
  constructor
  · intro draws fuel g hg
    unfold initState at hg
    split at hg
    · exact absurd hg (by simp)
    · rename_i f hf
      rw [Option.some.injEq] at hg
      subst hg
      simpa using spawn_food_not_mem _ draws fuel 0 f hf
  · intro draws fuel s hd tl s' hs heat hm
    rw [move_snake_cons draws fuel s hd tl hs, if_pos heat] at hm
    split at hm
    · exact absurd hm (by simp)
    · rename_i f hf
      have hfields := check_collision_fields _ _ hm
      rw [hfields.1, hfields.2.2.1]
      simpa using spawn_food_not_mem _ draws fuel 0 f hf

/-- Witness for `food_never_on_body_when_placed`: the initial
placement of `g0` and the relocation of the eating tick `g0 → g1`. -/
theorem food_never_on_body_when_placed_witness :
    g0.food_position ∉ g0.snake_positions ∧
    g1.food_position ∉ g1.snake_positions :=
  ⟨food_never_on_body_when_placed.1 dFood 1 g0 (by decide),
   food_never_on_body_when_placed.2 dZero 1 g0 (4, 4) [(4, 5), (4, 6)] g1
     (by decide) (by decide) (by decide)⟩

/-- Claim C7: the tick transition never checks grid boundaries — after
five ticks from the initial state (heading UP throughout), the head
sits at `(4, -1)`, outside `[0, 7]`, and `game_over` is still
false. -/
theorem head_escapes_grid_unterminated :
    ∃ g : GameState,
      (initState dZero 1).bind (runTicks dZero 1 5) = some g ∧
      g.snake_positions.head? = some (4, -1) ∧
      (-1 : Int) < 0 ∧
      g.game_over = false := by
  exact ⟨{ sInit with snake_positions := [(4, -1), (4, 0), (4, 1)] },
    by decide, by decide, by decide, by decide⟩

/-- Claim C8: the tick transition is total — whenever the body is
nonempty (as in every reachable state) and the draw stream visits
every grid cell (as a uniform `randint` sampler does with probability
one), while at least one grid cell is left unoccupied by the
post-move body, some finite fuel makes `move_snake` return a state. -/
theorem transitions_total (draws : Nat → Int × Int) (s : GameState)
    (hd : Int × Int) (tl : List (Int × Int))
    (hs : s.snake_positions = hd :: tl)
    (hcov : ∀ p ∈ gridCells s.grid_size, ∃ i, draws i = p)
    (hfree : ∃ p ∈ gridCells s.grid_size,
        p ∉ new_head_of hd s.direction :: s.snake_positions) :
    ∃ fuel s', move_snake draws fuel s = some s' := by
  by_cases heat : new_head_of hd s.direction = s.food_position
  · obtain ⟨p, hpgrid, hpnot⟩ := hfree
    obtain ⟨i, hi⟩ := hcov p hpgrid
    rw [hs] at hpnot
    have hnot : draws (0 + i) ∉ new_head_of hd s.direction :: hd :: tl := by
      rw [Nat.zero_add, hi]; exact hpnot
    obtain ⟨f, hf⟩ := spawn_food_succeeds _ draws i 0 hnot
    refine ⟨i + 1, ?_⟩
    rw [move_snake_cons draws (i + 1) s hd tl hs, if_pos heat, hf]
    exact check_collision_of_cons _ (new_head_of hd s.direction) (hd :: tl)
      (by simp)
  · refine ⟨0, ?_⟩
    rw [move_snake_cons draws 0 s hd tl hs, if_neg heat]
    by_cases hfe : s.food_eaten = false
    · rw [if_pos hfe]
      exact check_collision_of_cons _ (new_head_of hd s.direction)
        ((hd :: tl).dropLast) (by simp)
    · rw [if_neg hfe]
      exact check_collision_of_cons _ (new_head_of hd s.direction) (hd :: tl)
        (by simp)

set_option maxRecDepth 4096 in
/-- Witness for `transitions_total`: the initial state with the
grid-enumerating draw stream. -/
theorem transitions_total_witness :
    ∃ fuel s', move_snake enumDraws fuel sInit = some s' := by
  have hb : ∀ p ∈ gridCells 8, ∃ i ∈ List.range 64, enumDraws i = p := by
    decide
  exact transitions_total enumDraws sInit (4, 4) [(4, 5), (4, 6)] (by decide)
    (fun p hp => ⟨(hb p hp).choose, (hb p hp).choose_spec.2⟩)
    ⟨(0, 0), by decide, by decide⟩

/-- For rationals, `b < |a|` splits into the two strict bounds. -/
theorem lt_abs_split (a b : ℚ) (h : b < |a|) : b < a ∨ b < -a := by
  rcases abs_cases a with ⟨h1, _⟩ | ⟨h1, _⟩
  · left; rwa [h1] at h
  · right; rwa [h1] at h

/-- Claim C9: `get_direction` returns `NONE` exactly when neither axis
deflection exceeds the dead-zone threshold `0.1` around the center
`0.5`; when some axis exceeds it the result is a real direction; and
when both exceed it the horizontal axis wins (X is tested before Y),
so the result is `LEFT` or `RIGHT`. -/
theorem get_direction_spec (x y : ℚ) :
    ((|x - 1/2| ≤ 1/10 ∧ |y - 1/2| ≤ 1/10) →
      get_direction x y = Direction.NONE) ∧
    ((1/10 < |x - 1/2| ∨ 1/10 < |y - 1/2|) →
      get_direction x y ≠ Direction.NONE) ∧
    ((1/10 < |x - 1/2| ∧ 1/10 < |y - 1/2|) →
      (get_direction x y = Direction.LEFT ∨
       get_direction x y = Direction.RIGHT)) := by
  refine ⟨?_, ?_, ?_⟩
  · rintro ⟨hx, hy⟩
    rw [abs_le] at hx hy
    simp only [get_direction]
    split_ifs with h1 h2 h3 h4
    · exfalso; linarith [hx.1]
    · exfalso; linarith [hx.2]
    · exfalso; linarith [hy.1]
    · exfalso; linarith [hy.2]
    · rfl
  · intro h
    simp only [get_direction]
    split_ifs with h1 h2 h3 h4
    · exact fun hc => Direction.noConfusion hc
    · exact fun hc => Direction.noConfusion hc
    · exact fun hc => Direction.noConfusion hc
    · exact fun hc => Direction.noConfusion hc
    · intro _
      rw [not_lt] at h1 h2 h3 h4
      rcases h with hx | hy
      · rcases lt_abs_split _ _ hx with h' | h' <;> linarith
      · rcases lt_abs_split _ _ hy with h' | h' <;> linarith
  · rintro ⟨hx, hy⟩
    simp only [get_direction]
    split_ifs with h1 h2 h3 h4
    · exact Or.inl rfl
    · exact Or.inr rfl
    · exfalso
      rw [not_lt] at h1 h2
      rcases lt_abs_split _ _ hx with h' | h' <;> linarith
    · exfalso
      rw [not_lt] at h1 h2
      rcases lt_abs_split _ _ hx with h' | h' <;> linarith
    · exfalso
      rw [not_lt] at h1 h2
      rcases lt_abs_split _ _ hx with h' | h' <;> linarith

/-- Witness for `get_direction_spec`: a centered joystick yields
`NONE`; with both axes fully deflected (`0`, `0`) the horizontal axis
wins. -/
theorem get_direction_spec_witness :
    get_direction (1/2) (1/2) = Direction.NONE ∧
    (get_direction 0 0 = Direction.LEFT ∨
     get_direction 0 0 = Direction.RIGHT) :=
  ⟨(get_direction_spec (1/2) (1/2)).1 ⟨by norm_num, by norm_num⟩,
   (get_direction_spec 0 0).2.2
     ⟨by rw [abs_sub_comm, sub_zero, abs_of_nonneg (by norm_num : (0:ℚ) ≤ 1/2)];
         norm_num,
      by rw [abs_sub_comm, sub_zero, abs_of_nonneg (by norm_num : (0:ℚ) ≤ 1/2)];
         norm_num⟩⟩

/-! ## Spiral generator lemmas -/

/-- Membership in the integer range list. -/
theorem mem_rangeInt (a b x : Int) : x ∈ rangeInt a b ↔ a ≤ x ∧ x < b := by
  unfold rangeInt
  constructor
  · intro hx
    obtain ⟨i, hi, hix⟩ := List.mem_map.mp hx
    rw [List.mem_range] at hi
    omega
  · intro h
    exact List.mem_map.mpr ⟨(x - a).toNat, List.mem_range.mpr (by omega), by omega⟩

/-- The integer range list has no duplicates. -/
theorem nodup_rangeInt (a b : Int) : (rangeInt a b).Nodup :=
  List.Nodup.map (fun i j h => by omega) (List.nodup_range _)

/-- Counting in a duplicate-free list is membership. -/
theorem count_nodup_ite {α : Type} [BEq α] [LawfulBEq α] (l : List α) (x : α)
    (h : l.Nodup) : l.count x = if x ∈ l then 1 else 0 := by
  induction l with
  | nil => simp
  | cons a l ih =>
    rw [List.nodup_cons] at h
    rw [List.count_cons, ih h.2]
    split_ifs with h1 h2 h3 <;> simp_all [List.mem_cons]

/-- Count of a point in a horizontal segment of the spiral. -/
theorem count_hseg (a b c : Int) (p : Int × Int) :
    ((rangeInt a b).map (fun x => (x, c))).count p =
      if p.2 = c ∧ a ≤ p.1 ∧ p.1 < b then 1 else 0 := by
  have hmem : p ∈ (rangeInt a b).map (fun x => (x, c)) ↔
      (p.2 = c ∧ a ≤ p.1 ∧ p.1 < b) := by
    simp only [List.mem_map, mem_rangeInt]
    constructor
    · rintro ⟨x, hx, rfl⟩
      exact ⟨rfl, hx.1, hx.2⟩
    · rintro ⟨h1, h2, h3⟩
      exact ⟨p.1, ⟨h2, h3⟩, by rw [← h1]⟩
  have hnd : ((rangeInt a b).map (fun x => (x, c))).Nodup :=
    List.Nodup.map (fun x y h => by injection h) (nodup_rangeInt a b)
  rw [count_nodup_ite _ _ hnd]
  exact if_congr hmem rfl rfl

/-- Count of a point in a vertical segment of the spiral. -/
theorem count_vseg (a b c : Int) (p : Int × Int) :
    ((rangeInt a b).map (fun y => (c, y))).count p =
      if p.1 = c ∧ a ≤ p.2 ∧ p.2 < b then 1 else 0 := by
  have hmem : p ∈ (rangeInt a b).map (fun y => (c, y)) ↔
      (p.1 = c ∧ a ≤ p.2 ∧ p.2 < b) := by
    simp only [List.mem_map, mem_rangeInt]
    constructor
    · rintro ⟨y, hy, rfl⟩
      exact ⟨rfl, hy.1, hy.2⟩
    · rintro ⟨h1, h2, h3⟩
      exact ⟨p.2, ⟨h2, h3⟩, by rw [← h1]⟩
  have hnd : ((rangeInt a b).map (fun y => (c, y))).Nodup :=
    List.Nodup.map (fun x y h => by injection h) (nodup_rangeInt a b)
  rw [count_nodup_ite _ _ hnd]
  exact if_congr hmem rfl rfl

/-- The ring-peeling invariant of the spiral loop: with enough fuel to
cover the remaining vertical extent, the generated list contains each
point of the current rectangle `[left, right] × [top, bottom]` exactly
once and no other point. -/
theorem spiralAux_count :
    ∀ (fuel : Nat) (top bottom left right : Int),
      (bottom + 1 - top).toNat ≤ fuel → ∀ p : Int × Int,
      (spiralAux fuel top bottom left right).count p =
        if left ≤ p.1 ∧ p.1 ≤ right ∧ top ≤ p.2 ∧ p.2 ≤ bottom then 1
        else 0 := by
  intro fuel
  induction fuel with
  | zero =>
    intro top bottom left right hfuel p
    simp only [spiralAux, List.count_nil]
    rw [if_neg (by omega)]
  | succ n ih =>
    intro top bottom left right hfuel p
    by_cases hc : top ≤ bottom ∧ left ≤ right
    · simp only [spiralAux, if_pos hc, List.count_append, List.map_reverse,
        List.count_reverse, count_hseg, count_vseg,
        apply_ite (List.count p), List.count_nil]
      rw [ih (top + 1) _ _ (right - 1) (by split_ifs <;> omega) p]
      split_ifs <;> omega
    · simp only [spiralAux, if_neg hc, List.count_nil]
      rw [if_neg (by omega)]

/-- Claim C10: for any positive width and height, the outside-in
spiral contains every grid coordinate exactly once (and nothing else),
and the inside-out spiral is exactly its reversal. -/
theorem spiral_permutation_and_reversal (width height : Int)
    (hw : 0 < width) (hh : 0 < height) :
    (∀ p : Int × Int,
        (generate_spiral_coords_outside_in width height).count p =
          if 0 ≤ p.1 ∧ p.1 < width ∧ 0 ≤ p.2 ∧ p.2 < height then 1
          else 0) ∧
    generate_spiral_coords_inside_out width height =
      (generate_spiral_coords_outside_in width height).reverse := by
  refine ⟨fun p => ?_, rfl⟩
  unfold generate_spiral_coords_outside_in
  rw [spiralAux_count (width.toNat + height.toNat) 0 (height - 1) 0
    (width - 1) (by omega) p]
  split_ifs <;> omega

/-- Witness for `spiral_permutation_and_reversal` on the 2×2 grid at
the point `(0, 1)`. -/
theorem spiral_permutation_and_reversal_witness :
    ((0 : Int) < 2) ∧
    ((generate_spiral_coords_outside_in 2 2).count ((0 : Int), (1 : Int)) =
      if (0 : Int) ≤ 0 ∧ (0 : Int) < 2 ∧ (0 : Int) ≤ 1 ∧ (1 : Int) < 2 then 1
      else 0) ∧
    generate_spiral_coords_inside_out 2 2 =
      (generate_spiral_coords_outside_in 2 2).reverse :=
  ⟨by decide,
   (spiral_permutation_and_reversal 2 2 (by decide) (by decide)).1 (0, 1),
   (spiral_permutation_and_reversal 2 2 (by decide) (by decide)).2⟩

end Snake
